import Mathlib

/-!
Shallow embedding of `src/runtime/criusupport/criusupport.c` (OpenJ9 CRIU
support JNI bridge).

The C file is a straight-line orchestrator whose only branching depends on
the return values of external calls (string conversion, `open`, CRIU calls,
hooks, `close`).  We model one invocation as a pure function of a
`CheckpointEnv` that records what each external call would return, and we
return both the final `resultType` and a trace of externally visible events
(allocations, opens, closes, frees, exclusive-access transitions, hook and
CRIU invocations).  The `goto`-label cleanup structure of
`Java_org_eclipse_openj9_criu_CRIUSupport_checkpointJVMImpl` is modelled by
a `CleanupLabel` (which label the body jumps to) and a cleanup function
that executes the labels from that point onward, exactly as C fall-through
does.
-/

namespace CriuSupport

open scoped List

/-- The `CRIUResultType` constants cached by `setupJNIFieldIDs`. -/
inductive ResultType
  | Success
  | UnsupportedOperation
  | InvalidArguments
  | SystemCheckpointFailure
  | JVMCheckpointFailure
  | JVMRestoreFailure
deriving DecidableEq, Repr

/-- The resources the checkpoint path can acquire: the three native path
strings (heap-allocated when longer than `STRING_BUFFER_SIZE`) and the two
directory descriptors. -/
inductive Handle
  | imageStr
  | logStr
  | workStr
  | imageFD
  | workFD
deriving DecidableEq, Repr

/-- Externally visible events of one `checkpointJVMImpl` invocation, in
program order. -/
inductive Event
  | strAcquired (h : Handle)
  | strFreed (h : Handle)
  | opened (h : Handle) (fd : Int)
  | closed (h : Handle) (ok : Bool)
  | initOpts (rc : Int)
  | setImagesDirFD (fd : Int)
  | setShellJob (b : Bool)
  | setLogLevel (n : Int)
  | setLogFile
  | setLeaveRunning (b : Bool)
  | setExtUnixSk (b : Bool)
  | setFileLocks (b : Bool)
  | setWorkDirFD (fd : Int)
  | acquireExclusive
  | releaseExclusive
  | preHooks (ok : Bool)
  | dump (rc : Int)
  | postHooks (ok : Bool)
deriving DecidableEq, Repr

/-- The C constant `STRING_BUFFER_SIZE` (256). -/
def STRING_BUFFER_SIZE : Nat := 256

/-- Width modulus of `UDATA` (`uintptr_t`): the code is Linux-only and the
directories/strings path is 64-bit. -/
def UDATA_MOD : Nat := 2 ^ 64

/-- The C conversion of a signed value to `UDATA` (two's complement). -/
def toUDATA (i : Int) : Nat := (i % (2 : Int) ^ 64).toNat

/-- Oracle for the external calls made by `getNativeString` for one Java
string: whether `copyStringToUTF8WithMemAlloc` returns non-NULL, the
(signed) return value of the size-probing `omrstr_convert`, whether
`j9mem_allocate_memory` succeeds (consulted only when the converted size
exceeds the stack buffer), and the (signed) return value of the converting
`omrstr_convert`. -/
structure StrEnv where
  copyOk : Bool
  convertSize : Int
  allocOk : Bool
  convertRC2 : Int
deriving DecidableEq, Repr

/-- Result of `getNativeString`: success or failure, each recording whether
a heap buffer is owned by the caller afterwards (the caller frees the
pointer whenever it differs from the stack buffer; `j9mem_free_memory` of
NULL after a failed allocation releases nothing, so `heap` is `false`
there). -/
inductive StrResult
  | ok (heap : Bool)
  | fail (rt : ResultType) (heap : Bool)
deriving DecidableEq, Repr

/-- Model of `getNativeString` (criusupport.c lines 123-193).  A NULL
return from `copyStringToUTF8WithMemAlloc` sets the native OOM error and
classifies as `JVM_CHECKPOINT_FAILURE`.  `requiredConvertedStringSize` is
declared `UDATA` (unsigned, line 131), so the signed `omrstr_convert`
return is converted to an unsigned value and both
`requiredConvertedStringSize < 0` checks (lines 151 and 180) compare an
unsigned value against 0 and never hold: the `INVALID_ARGUMENTS`
classification they guard is dead code.  A negative conversion return
instead wraps to a huge size: `+= 1` then `> STRING_BUFFER_SIZE` routes it
to `j9mem_allocate_memory`, whose failure is classified
`JVM_CHECKPOINT_FAILURE`; if the allocation is reported successful the
string counts as converted.  (A return of exactly -1 wraps the size to 0,
skips the allocation, and makes line 171 write to index `0 - 1` of the
256-byte stack buffer: see `getNativeStringOOBWrite`.) -/
def getNativeString (s : StrEnv) : StrResult :=
  if s.copyOk = false then
    StrResult.fail ResultType.JVMCheckpointFailure false
  else
    let required := (toUDATA s.convertSize + 1) % UDATA_MOD
    if required > STRING_BUFFER_SIZE then
      if s.allocOk = false then
        StrResult.fail ResultType.JVMCheckpointFailure false
      else
        StrResult.ok true
    else
      StrResult.ok false

/-- Whether `getNativeString` performs the out-of-bounds write of line 171:
with `requiredConvertedStringSize` wrapped to 0 (first `omrstr_convert`
returned -1), `(*nativeString)[requiredConvertedStringSize - 1]` stores to
index `2^64 - 1` of the 256-byte stack buffer. -/
def getNativeStringOOBWrite (s : StrEnv) : Bool :=
  s.copyOk && decide ((toUDATA s.convertSize + 1) % UDATA_MOD = 0)

/-- One checkpoint request as passed to `checkpointJVMImpl`: whether the
optional `logFile` / `workDir` arguments are non-NULL, the boolean flags
and the log level.  `imagesDir` is asserted non-NULL by the code. -/
structure CheckpointRequest where
  hasLogFile : Bool
  hasWorkDir : Bool
  leaveRunning : Bool
  shellJob : Bool
  extUnixSupport : Bool
  fileLocks : Bool
  logLevel : Int
deriving DecidableEq, Repr

/-- Oracle for every external call of one `checkpointJVMImpl` invocation. -/
structure CheckpointEnv where
  checkpointAllowed : Bool
  dirStr : StrEnv
  logStr : StrEnv
  workStr : StrEnv
  dirOpenFD : Int
  workOpenFD : Int
  initOptsRC : Int
  preHooksOk : Bool
  dumpRC : Int
  postHooksOk : Bool
  closeWorkOk : Bool
  closeDirOk : Bool
deriving DecidableEq, Repr

/-- The cleanup labels of `checkpointJVMImpl`, in fall-through order:
`releaseExclusive`, `closeWorkDirFD`, `freeWorkDir`, `freeLog`,
`freeDir`. -/
inductive CleanupLabel
  | releaseExclusive
  | closeWorkDirFD
  | freeWorkDir
  | freeLog
  | freeDir
deriving DecidableEq, Repr

/-- Position of a label in the fall-through chain; label `l` executes the
statements of every label with index `≥ l.idx`. -/
def CleanupLabel.idx : CleanupLabel → Nat
  | .releaseExclusive => 0
  | .closeWorkDirFD => 1
  | .freeWorkDir => 2
  | .freeLog => 3
  | .freeDir => 4

/-- State of the invocation at the moment the main body jumps (or falls
through) to a cleanup label: the `resultType` local, the
`isAfterCheckpoint` local, the target label, the events emitted so far, and
which of the three path strings currently own a heap buffer. -/
structure MidState where
  rt : ResultType
  isAfterCheckpoint : Bool
  label : CleanupLabel
  events : List Event
  dirHeap : Bool
  logHeap : Bool
  workHeap : Bool
deriving DecidableEq, Repr

/-- Events of a successful `getNativeString`: a heap acquisition when the
converted string did not fit the stack buffer. -/
def strAcqEvents (h : Handle) (heap : Bool) : List Event :=
  if heap then [Event.strAcquired h] else []

/-- The `criu_set_*` configuration calls (criusupport.c lines 283-296). -/
def configEvents (e : CheckpointEnv) (r : CheckpointRequest) : List Event :=
  [Event.setImagesDirFD e.dirOpenFD, Event.setShellJob r.shellJob]
  ++ (if r.logLevel > 0 then [Event.setLogLevel r.logLevel] else [])
  ++ (if r.hasLogFile then [Event.setLogFile] else [])
  ++ [Event.setLeaveRunning r.leaveRunning, Event.setExtUnixSk r.extUnixSupport,
      Event.setFileLocks r.fileLocks]
  ++ (if r.hasWorkDir then [Event.setWorkDirFD e.workOpenFD] else [])

/-- Body from `criu_init_opts` (line 276) to the last statement before the
cleanup labels.  After a successful init every exit jumps to
`releaseExclusive`. -/
def bodyFromInit (e : CheckpointEnv) (r : CheckpointRequest)
    (dh lh wh : Bool) (ev : List Event) : MidState :=
  let ev := ev ++ [Event.initOpts e.initOptsRC]
  if e.initOptsRC ≠ 0 then
    ⟨ResultType.SystemCheckpointFailure, false, CleanupLabel.closeWorkDirFD, ev, dh, lh, wh⟩
  else
    let ev := ev ++ configEvents e r ++ [Event.acquireExclusive, Event.preHooks e.preHooksOk]
    if e.preHooksOk = false then
      ⟨ResultType.JVMCheckpointFailure, false, CleanupLabel.releaseExclusive, ev, dh, lh, wh⟩
    else
      let ev := ev ++ [Event.dump e.dumpRC]
      if e.dumpRC < 0 then
        ⟨ResultType.SystemCheckpointFailure, false, CleanupLabel.releaseExclusive, ev, dh, lh, wh⟩
      else
        let ev := ev ++ [Event.postHooks e.postHooksOk]
        if e.postHooksOk = false then
          ⟨ResultType.JVMRestoreFailure, true, CleanupLabel.releaseExclusive, ev, dh, lh, wh⟩
        else
          ⟨ResultType.Success, true, CleanupLabel.releaseExclusive, ev, dh, lh, wh⟩

/-- Body from the `NULL != workDir` test (line 260): converts and opens the
work directory when supplied, then continues at `criu_init_opts`. -/
def bodyFromWorkDir (e : CheckpointEnv) (r : CheckpointRequest)
    (dh lh : Bool) (ev : List Event) : MidState :=
  if r.hasWorkDir then
    match getNativeString e.workStr with
    | StrResult.fail rt wh =>
        ⟨rt, false, CleanupLabel.freeWorkDir, ev ++ strAcqEvents Handle.workStr wh, dh, lh, wh⟩
    | StrResult.ok wh =>
        let ev := ev ++ strAcqEvents Handle.workStr wh
        if e.workOpenFD < 0 then
          ⟨ResultType.InvalidArguments, false, CleanupLabel.freeWorkDir, ev, dh, lh, wh⟩
        else
          bodyFromInit e r dh lh wh (ev ++ [Event.opened Handle.workFD e.workOpenFD])
  else
    bodyFromInit e r dh lh false ev

/-- Body from `open(directoryChars, O_DIRECTORY)` (line 252). -/
def bodyFromOpenDir (e : CheckpointEnv) (r : CheckpointRequest)
    (dh lh : Bool) (ev : List Event) : MidState :=
  if e.dirOpenFD < 0 then
    ⟨ResultType.InvalidArguments, false, CleanupLabel.freeLog, ev, dh, lh, false⟩
  else
    bodyFromWorkDir e r dh lh (ev ++ [Event.opened Handle.imageFD e.dirOpenFD])

/-- The main body of `checkpointJVMImpl` inside the
`isCheckpointAllowed` branch, from unwrapping the strings down to the first
jump to a cleanup label. -/
def checkpointBody (e : CheckpointEnv) (r : CheckpointRequest) : MidState :=
  match getNativeString e.dirStr with
  | StrResult.fail rt dh =>
      ⟨rt, false, CleanupLabel.freeDir, strAcqEvents Handle.imageStr dh, dh, false, false⟩
  | StrResult.ok dh =>
      if r.hasLogFile then
        match getNativeString e.logStr with
        | StrResult.fail rt lh =>
            ⟨rt, false, CleanupLabel.freeLog,
              strAcqEvents Handle.imageStr dh ++ strAcqEvents Handle.logStr lh, dh, lh, false⟩
        | StrResult.ok lh =>
            bodyFromOpenDir e r dh lh
              (strAcqEvents Handle.imageStr dh ++ strAcqEvents Handle.logStr lh)
      else
        bodyFromOpenDir e r dh false (strAcqEvents Handle.imageStr dh)

/-- The value written to `resultType` by a failed `close` (lines 325-331 and
335-341): `JVM_RESTORE_FAILURE` when `isAfterCheckpoint`, else
`JVM_CHECKPOINT_FAILURE`. -/
def overwriteRT (isAfter : Bool) : ResultType :=
  if isAfter then ResultType.JVMRestoreFailure else ResultType.JVMCheckpointFailure

/-- Final `resultType` after running the cleanup labels from `m.label`
onward.  The `closeWorkDirFD` label closes `workDirFD` (note: even when no
work directory was supplied, in which case `workDirFD` still holds its
initial value 0); the `freeWorkDir` label closes `dirFD`; each failed close
unconditionally overwrites `resultType`. -/
def cleanupResult (e : CheckpointEnv) (m : MidState) : ResultType :=
  let rt1 := if m.label.idx ≤ 1 ∧ e.closeWorkOk = false then overwriteRT m.isAfterCheckpoint else m.rt
  if m.label.idx ≤ 2 ∧ e.closeDirOk = false then overwriteRT m.isAfterCheckpoint else rt1

/-- Events emitted by the cleanup labels from `m.label` onward, in
fall-through order: `releaseExclusiveVMAccess`, `close(workDirFD)`,
`close(dirFD)`, free of `workDirChars`, free of `logFileChars`, free of
`directoryChars` (each free only when the string was heap-allocated). -/
def cleanupEvents (e : CheckpointEnv) (m : MidState) : List Event :=
  (if m.label.idx = 0 then [Event.releaseExclusive] else [])
  ++ (if m.label.idx ≤ 1 then [Event.closed Handle.workFD e.closeWorkOk] else [])
  ++ (if m.label.idx ≤ 2 then
        [Event.closed Handle.imageFD e.closeDirOk]
        ++ (if m.workHeap then [Event.strFreed Handle.workStr] else [])
      else [])
  ++ (if m.label.idx ≤ 3 then (if m.logHeap then [Event.strFreed Handle.logStr] else []) else [])
  ++ (if m.dirHeap then [Event.strFreed Handle.imageStr] else [])

/-- Model of `Java_org_eclipse_openj9_criu_CRIUSupport_checkpointJVMImpl`
(criusupport.c lines 196-370): returns the final `resultType` (the value
passed to `constructResult`) and the trace of one invocation.  When
`isCheckpointAllowed` is false the entire Linux block is skipped and the
initial `UnsupportedOperation` value is returned with no side effect.  The
trailing conversion of a pending exception into a JNI local ref (lines
355-363) and `internalEnterVMFromJNI`/`internalExitVMToJNI` change neither
`resultType` nor any handle and are not modelled. -/
def Java_org_eclipse_openj9_criu_CRIUSupport_checkpointJVMImpl
    (e : CheckpointEnv) (r : CheckpointRequest) : ResultType × List Event :=
  if e.checkpointAllowed then
    let m := checkpointBody e r
    (cleanupResult e m, m.events ++ cleanupEvents e m)
  else
    (ResultType.UnsupportedOperation, [])

/-! ### The query entry points (`isCRIUSupportEnabledImpl`, `isCheckpointAllowed`)

`isCRIUSupportEnabledImpl` consults the VM gate, calls `criu_init_opts`
when the gate passes, and then calls `setupJNIFieldIDs`, which writes the
process-wide cached classes/field IDs on the `J9JavaVM` (or sets a native
out-of-memory error when class lookup fails).  We model the process-wide
mutable state those calls touch. -/

/-- The process-wide state written by `setupJNIFieldIDs` and
`criu_init_opts`: whether the `CRIUResultType`/`CRIUResult` global refs are
set, whether the result field IDs are cached, whether the external CRIU
option state has been initialized, and whether an error is pending on the
thread. -/
structure VMGlobalState where
  resultTypeClassSet : Bool
  resultClassSet : Bool
  fieldIDsSet : Bool
  criuOptsInited : Bool
  pendingError : Bool
deriving DecidableEq, Repr

/-- Oracle for the external calls of the query entry points. -/
structure QueryEnv where
  criuSupportEnabled : Bool
  initOptsRC : Int
  resultTypeClassFound : Bool
  resultClassFound : Bool
  checkpointAllowedFn : Bool
deriving DecidableEq, Repr

/-- Model of `setupJNIFieldIDs` (criusupport.c lines 36-74): stores global refs to
the result classes on the VM; when both lookups succeeded it caches the
seven field/method IDs, otherwise it sets a native out-of-memory error. -/
def setupJNIFieldIDs (e : QueryEnv) (s : VMGlobalState) : VMGlobalState :=
  let s := { s with resultTypeClassSet := e.resultTypeClassFound,
                    resultClassSet := e.resultClassFound }
  if e.resultTypeClassFound && e.resultClassFound then
    { s with fieldIDsSet := true }
  else
    { s with pendingError := true }

/-- Model of `Java_org_eclipse_openj9_criu_CRIUSupport_isCRIUSupportEnabledImpl`
(criusupport.c lines 91-108): true iff the VM gate passes and
`criu_init_opts()` returns 0; always ends by calling `setupJNIFieldIDs`. -/
def Java_org_eclipse_openj9_criu_CRIUSupport_isCRIUSupportEnabledImpl
    (e : QueryEnv) (s : VMGlobalState) : Bool × VMGlobalState :=
  if e.criuSupportEnabled then
    (decide (e.initOptsRC = 0), setupJNIFieldIDs e { s with criuOptsInited := true })
  else
    (false, setupJNIFieldIDs e s)

/-- Model of `Java_org_eclipse_openj9_criu_CRIUSupport_isCheckpointAllowed`
(criusupport.c lines 110-121): returns the VM predicate, touching
nothing. -/
def Java_org_eclipse_openj9_criu_CRIUSupport_isCheckpointAllowed
    (e : QueryEnv) (s : VMGlobalState) : Bool × VMGlobalState :=
  (e.checkpointAllowedFn, s)

/-! ### Helper predicates over traces -/

/-- Release of a resource handle: a `close` call or a heap-string free. -/
def isHandleRelease : Event → Bool
  | Event.closed _ _ => true
  | Event.strFreed _ => true
  | _ => false

/-- Acquisition of a resource handle: a successful `open` or a heap-string
allocation. -/
def isHandleAcquire : Event → Bool
  | Event.opened _ _ => true
  | Event.strAcquired _ => true
  | _ => false

/-- A close of the work-directory descriptor variable `workDirFD`. -/
def isWorkFDClose : Event → Bool
  | Event.closed Handle.workFD _ => true
  | _ => false

/-- A successful open recorded for the work-directory descriptor. -/
def isWorkFDOpen : Event → Bool
  | Event.opened Handle.workFD _ => true
  | _ => false

/-- The order in which the code acquires handles on the full path:
image-dir string, log string, image-dir descriptor, work-dir string,
work-dir descriptor. -/
def acqOrder (e : CheckpointEnv) : List Event :=
  [Event.strAcquired Handle.imageStr, Event.strAcquired Handle.logStr,
   Event.opened Handle.imageFD e.dirOpenFD,
   Event.strAcquired Handle.workStr, Event.opened Handle.workFD e.workOpenFD]

/-- The order in which the cleanup labels release handles:
work-dir descriptor, image-dir descriptor, work-dir string, log string,
image-dir string. -/
def relOrder (e : CheckpointEnv) : List Event :=
  [Event.closed Handle.workFD e.closeWorkOk, Event.closed Handle.imageFD e.closeDirOk,
   Event.strFreed Handle.workStr, Event.strFreed Handle.logStr,
   Event.strFreed Handle.imageStr]

/-- Index of the first occurrence of `a` in `t`. -/
def firstIdx (t : List Event) (a : Event) : Nat :=
  t.findIdx (fun x => decide (x = a))

/-- Whether `getNativeString` succeeded. -/
def StrResult.isOk : StrResult → Bool
  | StrResult.ok _ => true
  | StrResult.fail _ _ => false

/-! ### Concrete environments used to instantiate the theorems -/

/-- A string that converts successfully and fits the stack buffer. -/
def strEnvOkSmall : StrEnv := ⟨true, 10, true, 0⟩

/-- A string that converts successfully but needs a heap buffer. -/
def strEnvHeap : StrEnv := ⟨true, 300, true, 0⟩

/-- A string whose encoding conversion fails with status -2; the wrapped
unsigned size routes to the big-buffer allocation, which succeeds. -/
def strEnvConvNeg : StrEnv := ⟨true, -2, true, -1⟩

/-- A string whose encoding conversion fails with status -2 and whose
subsequent huge allocation fails. -/
def strEnvConvNegAllocFail : StrEnv := ⟨true, -2, false, -1⟩

/-- A string whose encoding conversion fails with status -1: the unsigned
size wraps to 0 and the NUL store goes out of bounds. -/
def strEnvConvWrap : StrEnv := ⟨true, -1, true, -1⟩

/-- A string whose initial UTF8 copy fails for lack of native memory. -/
def strEnvCopyFail : StrEnv := ⟨false, 10, true, 0⟩

/-- Request with a mandatory image directory only. -/
def reqPlain : CheckpointRequest := ⟨false, false, false, false, false, false, 0⟩

/-- Request that also supplies a work directory. -/
def reqWork : CheckpointRequest := ⟨false, true, false, false, false, false, 0⟩

/-- Every external call succeeds. -/
def envAllOk : CheckpointEnv :=
  ⟨true, strEnvOkSmall, strEnvOkSmall, strEnvOkSmall, 3, 4, 0, true, 0, true, true, true⟩

/-- Run in which `criu_dump` fails and the later `close(workDirFD)` also fails. -/
def envDumpCloseFail : CheckpointEnv :=
  ⟨true, strEnvOkSmall, strEnvOkSmall, strEnvOkSmall, 3, 4, 0, true, -1, true, false, true⟩

/-- All calls succeed and the work-directory path needs a heap buffer. -/
def envWorkHeap : CheckpointEnv :=
  ⟨true, strEnvOkSmall, strEnvOkSmall, strEnvHeap, 3, 4, 0, true, 0, true, true, true⟩

/-- The image-directory string conversion fails with -2 and the huge
allocation fails too; everything else would succeed. -/
def envDirConvNegOOM : CheckpointEnv :=
  ⟨true, strEnvConvNegAllocFail, strEnvOkSmall, strEnvOkSmall, 3, 4, 0, true, 0, true, true, true⟩

/-- The image-directory string conversion fails with -2 but the huge
allocation is reported successful; everything else succeeds. -/
def envDirConvNeg : CheckpointEnv :=
  ⟨true, strEnvConvNeg, strEnvOkSmall, strEnvOkSmall, 3, 4, 0, true, 0, true, true, true⟩

/-- Checkpointing is not permitted for the process. -/
def envDisallowed : CheckpointEnv :=
  ⟨false, strEnvOkSmall, strEnvOkSmall, strEnvOkSmall, 3, 4, 0, true, 0, true, true, true⟩

/-- Opening the image directory fails. -/
def envBadDir : CheckpointEnv :=
  ⟨true, strEnvOkSmall, strEnvOkSmall, strEnvOkSmall, -1, 4, 0, true, 0, true, true, true⟩

/-- The image-directory string copy fails for lack of native memory. -/
def envDirOOM : CheckpointEnv :=
  ⟨true, strEnvCopyFail, strEnvOkSmall, strEnvOkSmall, 3, 4, 0, true, 0, true, true, true⟩

/-- A post-restore hook fails; everything else succeeds. -/
def envPostHookFail : CheckpointEnv :=
  ⟨true, strEnvOkSmall, strEnvOkSmall, strEnvOkSmall, 3, 4, 0, true, 0, false, true, true⟩

/-- The fresh process-wide state before any query ran. -/
def vmStateFresh : VMGlobalState := ⟨false, false, false, false, false⟩

/-- Query oracle: support enabled, init succeeds, classes found. -/
def queryEnvOk : QueryEnv := ⟨true, 0, true, true, true⟩

/-! ### Counting and trace lemmas -/

/-- Number of occurrences of event `a` in a trace. -/
def countEv (a : Event) : List Event → Nat
  | [] => 0
  | x :: t => (if x = a then 1 else 0) + countEv a t

@[simp]
theorem countEv_nil (a : Event) : countEv a [] = 0 := rfl

@[simp]
theorem countEv_cons (a x : Event) (t : List Event) :
    countEv a (x :: t) = (if x = a then 1 else 0) + countEv a t := rfl

@[simp]
theorem countEv_append (a : Event) (l₁ l₂ : List Event) :
    countEv a (l₁ ++ l₂) = countEv a l₁ + countEv a l₂ := by
  induction l₁ with
  | nil => simp
  | cons x t ih => simp [ih]; omega

theorem countEv_pos_iff (a : Event) (t : List Event) :
    0 < countEv a t ↔ a ∈ t := by
  induction t with
  | nil => simp
  | cons x t ih =>
    by_cases hx : x = a
    · simp [hx]
    · simp only [countEv_cons, if_neg hx, List.mem_cons]
      constructor
      · intro h
        exact Or.inr (ih.mp (by omega))
      · rintro (h | h)
        · exact absurd h.symm hx
        · have := ih.mpr h
          omega

/-- The configuration calls are neither acquisitions, releases, nor
exclusive-access transitions. -/
theorem configEvents_counts (e : CheckpointEnv) (r : CheckpointRequest) :
    (configEvents e r).all (fun x => !isHandleRelease x) = true
      ∧ countEv Event.releaseExclusive (configEvents e r) = 0
      ∧ countEv Event.acquireExclusive (configEvents e r) = 0 := by
  unfold configEvents
  split_ifs <;> simp [isHandleRelease]

theorem strAcqEvents_counts (h : Handle) (b : Bool) :
    (strAcqEvents h b).all (fun x => !isHandleRelease x) = true
      ∧ countEv Event.releaseExclusive (strAcqEvents h b) = 0
      ∧ countEv Event.acquireExclusive (strAcqEvents h b) = 0 := by
  cases b <;> simp [strAcqEvents, isHandleRelease]

/-- Invariant of the main body at the moment it jumps to a cleanup label:
no handle has been released yet, exclusive access has not been released,
and it has been acquired exactly when the jump target is the
`releaseExclusive` label. -/
def BodyOK (m : MidState) : Prop :=
  m.events.all (fun x => !isHandleRelease x) = true
    ∧ countEv Event.releaseExclusive m.events = 0
    ∧ countEv Event.acquireExclusive m.events
        = (if m.label = CleanupLabel.releaseExclusive then 1 else 0)

theorem bodyFromInit_ok (e : CheckpointEnv) (r : CheckpointRequest)
    (dh lh wh : Bool) (ev : List Event)
    (hall : ev.all (fun x => !isHandleRelease x) = true)
    (hrel : countEv Event.releaseExclusive ev = 0)
    (hacq : countEv Event.acquireExclusive ev = 0) :
    BodyOK (bodyFromInit e r dh lh wh ev) := by
  obtain ⟨hc1, hc2, hc3⟩ := configEvents_counts e r
  unfold bodyFromInit BodyOK
  split_ifs <;>
    simp_all [isHandleRelease]

theorem bodyFromWorkDir_ok (e : CheckpointEnv) (r : CheckpointRequest)
    (dh lh : Bool) (ev : List Event)
    (hall : ev.all (fun x => !isHandleRelease x) = true)
    (hrel : countEv Event.releaseExclusive ev = 0)
    (hacq : countEv Event.acquireExclusive ev = 0) :
    BodyOK (bodyFromWorkDir e r dh lh ev) := by
  unfold bodyFromWorkDir
  split
  · split
    · next rt wh _ =>
      obtain ⟨hs1, hs2, hs3⟩ := strAcqEvents_counts Handle.workStr wh
      simp_all [BodyOK]
    · next wh _ =>
      obtain ⟨hs1, hs2, hs3⟩ := strAcqEvents_counts Handle.workStr wh
      split_ifs
      · simp_all [BodyOK]
      · refine bodyFromInit_ok e r dh lh wh _ ?_ ?_ ?_ <;>
          simp_all [isHandleRelease]
  · exact bodyFromInit_ok e r dh lh false ev hall hrel hacq

theorem bodyFromOpenDir_ok (e : CheckpointEnv) (r : CheckpointRequest)
    (dh lh : Bool) (ev : List Event)
    (hall : ev.all (fun x => !isHandleRelease x) = true)
    (hrel : countEv Event.releaseExclusive ev = 0)
    (hacq : countEv Event.acquireExclusive ev = 0) :
    BodyOK (bodyFromOpenDir e r dh lh ev) := by
  unfold bodyFromOpenDir
  split_ifs
  · simp_all [BodyOK]
  · refine bodyFromWorkDir_ok e r dh lh _ ?_ ?_ ?_ <;>
      simp_all [isHandleRelease]

theorem checkpointBody_ok (e : CheckpointEnv) (r : CheckpointRequest) :
    BodyOK (checkpointBody e r) := by
  unfold checkpointBody
  split
  · next rt dh _ =>
    obtain ⟨hs1, hs2, hs3⟩ := strAcqEvents_counts Handle.imageStr dh
    simp_all [BodyOK]
  · next dh _ =>
    obtain ⟨hs1, hs2, hs3⟩ := strAcqEvents_counts Handle.imageStr dh
    split_ifs
    · split
      · next rt lh _ =>
        obtain ⟨ht1, ht2, ht3⟩ := strAcqEvents_counts Handle.logStr lh
        simp_all [BodyOK]
      · next lh _ =>
        obtain ⟨ht1, ht2, ht3⟩ := strAcqEvents_counts Handle.logStr lh
        refine bodyFromOpenDir_ok e r dh lh _ ?_ ?_ ?_ <;> simp_all
    · exact bodyFromOpenDir_ok e r dh false _ hs1 hs2 hs3

/-- The cleanup labels never acquire exclusive access. -/
theorem cleanup_countEv_acquireExclusive (e : CheckpointEnv) (m : MidState) :
    countEv Event.acquireExclusive (cleanupEvents e m) = 0 := by
  obtain ⟨rt, ia, lab, ev, dh, lh, wh⟩ := m
  cases lab <;> cases dh <;> cases lh <;> cases wh <;>
    simp [cleanupEvents, CleanupLabel.idx]

/-- The cleanup labels release exclusive access exactly when entered at the
`releaseExclusive` label. -/
theorem cleanup_countEv_releaseExclusive (e : CheckpointEnv) (m : MidState) :
    countEv Event.releaseExclusive (cleanupEvents e m)
      = (if m.label = CleanupLabel.releaseExclusive then 1 else 0) := by
  obtain ⟨rt, ia, lab, ev, dh, lh, wh⟩ := m
  cases lab <;> cases dh <;> cases lh <;> cases wh <;>
    simp [cleanupEvents, CleanupLabel.idx]

/-- Entered at the `releaseExclusive` label, the cleanup's first event is
the release of exclusive access. -/
theorem cleanupEvents_of_releaseExclusive (e : CheckpointEnv) (m : MidState)
    (h : m.label = CleanupLabel.releaseExclusive) :
    cleanupEvents e m
      = Event.releaseExclusive
          :: ([Event.closed Handle.workFD e.closeWorkOk]
              ++ ([Event.closed Handle.imageFD e.closeDirOk]
                  ++ (if m.workHeap then [Event.strFreed Handle.workStr] else []))
              ++ (if m.logHeap then [Event.strFreed Handle.logStr] else [])
              ++ (if m.dirHeap then [Event.strFreed Handle.imageStr] else [])) := by
  simp [cleanupEvents, h, CleanupLabel.idx]

/-- When the three strings convert and the directories open, the body runs
through to the `criu_init_opts` stage. -/
theorem checkpointBody_reach_init (e : CheckpointEnv) (r : CheckpointRequest)
    (hdir : (getNativeString e.dirStr).isOk = true)
    (hlog : r.hasLogFile = true → (getNativeString e.logStr).isOk = true)
    (hopen : 0 ≤ e.dirOpenFD)
    (hwork : r.hasWorkDir = true → (getNativeString e.workStr).isOk = true)
    (hwopen : r.hasWorkDir = true → 0 ≤ e.workOpenFD) :
    ∃ dh lh wh ev, checkpointBody e r = bodyFromInit e r dh lh wh ev := by
  have hreach : ∀ dh lh ev, ∃ dh' lh' wh ev',
      bodyFromOpenDir e r dh lh ev = bodyFromInit e r dh' lh' wh ev' := by
    intro dh lh ev
    unfold bodyFromOpenDir bodyFromWorkDir
    rw [if_neg (not_lt.mpr hopen)]
    cases hW : r.hasWorkDir with
    | false => simp only [Bool.false_eq_true, if_false]; exact ⟨dh, lh, false, _, rfl⟩
    | true =>
      simp only [if_true]
      cases hw : getNativeString e.workStr with
      | fail rt h =>
        have hbad := hwork hW
        rw [hw] at hbad
        simp [StrResult.isOk] at hbad
      | ok wh =>
        dsimp only
        rw [if_neg (not_lt.mpr (hwopen hW))]
        exact ⟨dh, lh, wh, _, rfl⟩
  unfold checkpointBody
  cases hd : getNativeString e.dirStr with
  | fail rt h => rw [hd] at hdir; simp [StrResult.isOk] at hdir
  | ok dh =>
    cases hL : r.hasLogFile with
    | false => exact hreach dh false _
    | true =>
      cases hl : getNativeString e.logStr with
      | fail rt h => rw [hl] at hlog; simp [StrResult.isOk, hL] at hlog
      | ok lh => exact hreach dh lh _

theorem sublist_ite_cons (c : Prop) [Decidable c] (x : Event) {l L : List Event}
    (hsub : l <+ L) : ((if c then [x] else []) ++ l) <+ x :: L := by
  by_cases hc : c
  · simpa [hc] using hsub.cons₂ x
  · simpa [hc] using hsub.cons x

theorem filterAcq_strAcqEvents (h : Handle) (b : Bool) :
    (strAcqEvents h b).filter isHandleAcquire = strAcqEvents h b := by
  cases b <;> simp [strAcqEvents, isHandleAcquire]

theorem filterAcq_configEvents (e : CheckpointEnv) (r : CheckpointRequest) :
    (configEvents e r).filter isHandleAcquire = [] := by
  unfold configEvents
  split_ifs <;> simp [isHandleAcquire]

theorem filterAcq_bodyFromInit (e : CheckpointEnv) (r : CheckpointRequest)
    (dh lh wh : Bool) (ev : List Event) :
    (bodyFromInit e r dh lh wh ev).events.filter isHandleAcquire
      = ev.filter isHandleAcquire := by
  unfold bodyFromInit
  split_ifs <;> simp [List.filter_append, filterAcq_configEvents, isHandleAcquire]

theorem filterAcq_bodyFromWorkDir (e : CheckpointEnv) (r : CheckpointRequest)
    (dh lh : Bool) (ev : List Event) :
    (bodyFromWorkDir e r dh lh ev).events.filter isHandleAcquire
      <+ ev.filter isHandleAcquire
          ++ [Event.strAcquired Handle.workStr, Event.opened Handle.workFD e.workOpenFD] := by
  have hstr : ∀ wh : Bool, strAcqEvents Handle.workStr wh
      <+ [Event.strAcquired Handle.workStr, Event.opened Handle.workFD e.workOpenFD] := by
    intro wh
    cases wh <;> simp [strAcqEvents]
  unfold bodyFromWorkDir
  split
  · split
    · next rt wh heq =>
      dsimp only
      rw [List.filter_append, filterAcq_strAcqEvents]
      exact (List.Sublist.refl _).append (hstr wh)
    · next wh heq =>
      split_ifs
      · dsimp only
        rw [List.filter_append, filterAcq_strAcqEvents]
        exact (List.Sublist.refl _).append (hstr wh)
      · rw [filterAcq_bodyFromInit, List.filter_append, List.filter_append,
          filterAcq_strAcqEvents]
        have hlast : ([Event.opened Handle.workFD e.workOpenFD].filter isHandleAcquire)
            = [Event.opened Handle.workFD e.workOpenFD] := by
          simp [isHandleAcquire]
        rw [hlast, List.append_assoc]
        refine (List.Sublist.refl _).append ?_
        cases wh <;> simp [strAcqEvents]
  · rw [filterAcq_bodyFromInit]
    exact List.sublist_append_left _ _

theorem filterAcq_bodyFromOpenDir (e : CheckpointEnv) (r : CheckpointRequest)
    (dh lh : Bool) (ev : List Event) :
    (bodyFromOpenDir e r dh lh ev).events.filter isHandleAcquire
      <+ ev.filter isHandleAcquire
          ++ [Event.opened Handle.imageFD e.dirOpenFD,
              Event.strAcquired Handle.workStr, Event.opened Handle.workFD e.workOpenFD] := by
  unfold bodyFromOpenDir
  split_ifs
  · exact List.sublist_append_left _ _
  · have h := filterAcq_bodyFromWorkDir e r dh lh
      (ev ++ [Event.opened Handle.imageFD e.dirOpenFD])
    rw [List.filter_append] at h
    have hmid : ([Event.opened Handle.imageFD e.dirOpenFD].filter isHandleAcquire)
        = [Event.opened Handle.imageFD e.dirOpenFD] := by
      simp [isHandleAcquire]
    rw [hmid, List.append_assoc] at h
    exact h

theorem filterAcq_checkpointBody (e : CheckpointEnv) (r : CheckpointRequest) :
    (checkpointBody e r).events.filter isHandleAcquire <+ acqOrder e := by
  have himg : ∀ dh : Bool, strAcqEvents Handle.imageStr dh
      <+ [Event.strAcquired Handle.imageStr, Event.strAcquired Handle.logStr] := by
    intro dh
    cases dh <;> simp [strAcqEvents]
  have hlog : ∀ lh : Bool, strAcqEvents Handle.logStr lh
      <+ [Event.strAcquired Handle.logStr] := by
    intro lh
    cases lh <;> simp [strAcqEvents]
  have hsplit : acqOrder e
      = [Event.strAcquired Handle.imageStr, Event.strAcquired Handle.logStr]
        ++ [Event.opened Handle.imageFD e.dirOpenFD,
            Event.strAcquired Handle.workStr, Event.opened Handle.workFD e.workOpenFD] := rfl
  unfold checkpointBody
  split
  · next rt dh heq =>
    dsimp only
    rw [filterAcq_strAcqEvents, hsplit]
    exact (himg dh).trans (List.sublist_append_left _ _)
  · next dh heq =>
    split_ifs
    · split
      · next rt lh heq2 =>
        dsimp only
        rw [List.filter_append, filterAcq_strAcqEvents, filterAcq_strAcqEvents, hsplit]
        refine List.Sublist.trans ?_ (List.sublist_append_left _ _)
        have : [Event.strAcquired Handle.imageStr, Event.strAcquired Handle.logStr]
            = [Event.strAcquired Handle.imageStr] ++ [Event.strAcquired Handle.logStr] := rfl
        rw [this]
        refine List.Sublist.append ?_ (hlog lh)
        cases dh <;> simp [strAcqEvents]
      · next lh heq2 =>
        have h := filterAcq_bodyFromOpenDir e r dh lh
          (strAcqEvents Handle.imageStr dh ++ strAcqEvents Handle.logStr lh)
        rw [List.filter_append, filterAcq_strAcqEvents, filterAcq_strAcqEvents] at h
        rw [hsplit]
        refine h.trans (List.Sublist.append ?_ (List.Sublist.refl _))
        have : [Event.strAcquired Handle.imageStr, Event.strAcquired Handle.logStr]
            = [Event.strAcquired Handle.imageStr] ++ [Event.strAcquired Handle.logStr] := rfl
        rw [this]
        refine List.Sublist.append ?_ (hlog lh)
        cases dh <;> simp [strAcqEvents]
    · have h := filterAcq_bodyFromOpenDir e r dh false (strAcqEvents Handle.imageStr dh)
      rw [filterAcq_strAcqEvents] at h
      rw [hsplit]
      exact h.trans (List.Sublist.append (himg dh) (List.Sublist.refl _))

theorem filterAcq_cleanupEvents (e : CheckpointEnv) (m : MidState) :
    (cleanupEvents e m).filter isHandleAcquire = [] := by
  unfold cleanupEvents
  split_ifs <;> simp [isHandleAcquire]

theorem filterRel_cleanupEvents_sublist (e : CheckpointEnv) (m : MidState) :
    (cleanupEvents e m).filter isHandleRelease <+ relOrder e := by
  have hdecomp : (cleanupEvents e m).filter isHandleRelease
      = (if m.label.idx ≤ 1 then [Event.closed Handle.workFD e.closeWorkOk] else [])
        ++ ((if m.label.idx ≤ 2 then [Event.closed Handle.imageFD e.closeDirOk] else [])
        ++ ((if m.label.idx ≤ 2 ∧ m.workHeap = true then [Event.strFreed Handle.workStr] else [])
        ++ ((if m.label.idx ≤ 3 ∧ m.logHeap = true then [Event.strFreed Handle.logStr] else [])
        ++ (if m.dirHeap = true then [Event.strFreed Handle.imageStr] else [])))) := by
    unfold cleanupEvents
    split_ifs <;> simp_all [isHandleRelease]
  rw [hdecomp]
  show _ <+ Event.closed Handle.workFD e.closeWorkOk
      :: (Event.closed Handle.imageFD e.closeDirOk
      :: (Event.strFreed Handle.workStr
      :: (Event.strFreed Handle.logStr :: [Event.strFreed Handle.imageStr])))
  refine sublist_ite_cons _ _ (sublist_ite_cons _ _ (sublist_ite_cons _ _ (sublist_ite_cons _ _ ?_)))
  by_cases hd : m.dirHeap = true <;> simp [hd]

/-! ### Theorems -/

/-- C1: the claim says that when no work directory is supplied no close is
performed for a work-directory descriptor.  The code violates this: on a
fully successful invocation with no work directory, the `closeWorkDirFD`
label still executes `close(workDirFD)` with `workDirFD` holding its
initial value 0, so the trace contains a close of the work-directory
descriptor although no open of it ever happened.  By contrast, when a work
directory is supplied, open and close of it pair up exactly (final
conjuncts), so the unguarded close is isolated to the unsupplied case. -/
theorem checkpoint_closes_unacquired_workdir_fd :
    Event.closed Handle.workFD true
        ∈ (Java_org_eclipse_openj9_criu_CRIUSupport_checkpointJVMImpl envAllOk reqPlain).2
      ∧ ((Java_org_eclipse_openj9_criu_CRIUSupport_checkpointJVMImpl envAllOk reqPlain).2.all
          (fun x => !isWorkFDOpen x)) = true
      ∧ (Java_org_eclipse_openj9_criu_CRIUSupport_checkpointJVMImpl envAllOk reqPlain).1
          = ResultType.Success
      ∧ countEv (Event.opened Handle.workFD 4)
          (Java_org_eclipse_openj9_criu_CRIUSupport_checkpointJVMImpl envAllOk reqWork).2 = 1
      ∧ countEv (Event.closed Handle.workFD true)
          (Java_org_eclipse_openj9_criu_CRIUSupport_checkpointJVMImpl envAllOk reqWork).2 = 1 := by
  decide

/-- C4: when the permission gate rejects the request, the outcome is
`UnsupportedOperation` and the invocation performs no side effect at all
(empty trace: nothing opened, nothing configured, no hooks run). -/
theorem disallowed_request_no_effects (e : CheckpointEnv) (r : CheckpointRequest)
    (h : e.checkpointAllowed = false) :
    Java_org_eclipse_openj9_criu_CRIUSupport_checkpointJVMImpl e r
      = (ResultType.UnsupportedOperation, []) := by
  simp [Java_org_eclipse_openj9_criu_CRIUSupport_checkpointJVMImpl, h]

/-- C4 witness: a concrete disallowed request. -/
theorem disallowed_request_no_effects_witness :
    envDisallowed.checkpointAllowed = false
      ∧ Java_org_eclipse_openj9_criu_CRIUSupport_checkpointJVMImpl envDisallowed reqPlain
          = (ResultType.UnsupportedOperation, []) :=
  ⟨rfl, disallowed_request_no_effects envDisallowed reqPlain rfl⟩

/-- C3: exclusive VM access is acquired at most once per invocation and is
released exactly as many times as acquired, on every exit path; whenever it
was acquired, the trace splits at the (unique) release of exclusive access
and no resource handle is released before that point. -/
theorem exclusive_access_release_paired (e : CheckpointEnv) (r : CheckpointRequest) :
    countEv Event.acquireExclusive
        (Java_org_eclipse_openj9_criu_CRIUSupport_checkpointJVMImpl e r).2
      = countEv Event.releaseExclusive
          (Java_org_eclipse_openj9_criu_CRIUSupport_checkpointJVMImpl e r).2
    ∧ countEv Event.acquireExclusive
        (Java_org_eclipse_openj9_criu_CRIUSupport_checkpointJVMImpl e r).2 ≤ 1
    ∧ (Event.acquireExclusive
          ∈ (Java_org_eclipse_openj9_criu_CRIUSupport_checkpointJVMImpl e r).2 →
        ∃ t₁ t₂,
          (Java_org_eclipse_openj9_criu_CRIUSupport_checkpointJVMImpl e r).2
              = t₁ ++ Event.releaseExclusive :: t₂
            ∧ t₁.all (fun x => !isHandleRelease x) = true) := by
  by_cases hallow : e.checkpointAllowed
  · have himpl : (Java_org_eclipse_openj9_criu_CRIUSupport_checkpointJVMImpl e r).2
        = (checkpointBody e r).events ++ cleanupEvents e (checkpointBody e r) := by
      simp [Java_org_eclipse_openj9_criu_CRIUSupport_checkpointJVMImpl, hallow]
    obtain ⟨h1, h2, h3⟩ := checkpointBody_ok e r
    rw [himpl]
    refine ⟨?_, ?_, ?_⟩
    · rw [countEv_append, countEv_append, h2, h3,
        cleanup_countEv_acquireExclusive, cleanup_countEv_releaseExclusive]
      omega
    · rw [countEv_append, h3, cleanup_countEv_acquireExclusive]
      split_ifs <;> omega
    · intro hmem
      have hpos := (countEv_pos_iff Event.acquireExclusive _).mpr hmem
      rw [countEv_append, h3, cleanup_countEv_acquireExclusive] at hpos
      have hlab : (checkpointBody e r).label = CleanupLabel.releaseExclusive := by
        by_contra hne
        simp [hne] at hpos
      refine ⟨(checkpointBody e r).events,
        [Event.closed Handle.workFD e.closeWorkOk]
            ++ ([Event.closed Handle.imageFD e.closeDirOk]
                ++ (if (checkpointBody e r).workHeap then [Event.strFreed Handle.workStr] else []))
            ++ (if (checkpointBody e r).logHeap then [Event.strFreed Handle.logStr] else [])
            ++ (if (checkpointBody e r).dirHeap then [Event.strFreed Handle.imageStr] else []),
        ?_, h1⟩
      rw [cleanupEvents_of_releaseExclusive e _ hlab]
  · simp [Java_org_eclipse_openj9_criu_CRIUSupport_checkpointJVMImpl, hallow]

/-- C3 witness: on the all-success run, exclusive access is acquired, and
the trace splits at its release with no handle released before it. -/
theorem exclusive_access_release_paired_witness :
    Event.acquireExclusive
        ∈ (Java_org_eclipse_openj9_criu_CRIUSupport_checkpointJVMImpl envAllOk reqPlain).2
      ∧ ∃ t₁ t₂,
          (Java_org_eclipse_openj9_criu_CRIUSupport_checkpointJVMImpl envAllOk reqPlain).2
              = t₁ ++ Event.releaseExclusive :: t₂
            ∧ t₁.all (fun x => !isHandleRelease x) = true :=
  ⟨by decide, (exclusive_access_release_paired envAllOk reqPlain).2.2 (by decide)⟩

/-- C2 counterexample: the claim says a close failure never replaces a more
specific earlier failure classification such as `SystemCheckpointFailure`
from a failed dump.  In this run the dump fails (outcome so far
`SystemCheckpointFailure`) and the subsequent `close(workDirFD)` failure
overwrites it with `JVMCheckpointFailure`. -/
theorem close_failure_replaces_dump_failure :
    (checkpointBody envDumpCloseFail reqPlain).rt = ResultType.SystemCheckpointFailure
      ∧ (Java_org_eclipse_openj9_criu_CRIUSupport_checkpointJVMImpl envDumpCloseFail reqPlain).1
          = ResultType.JVMCheckpointFailure := by
  decide

/-- C2 amended: a failed close always overwrites the outcome — with
`JVMRestoreFailure` when the dump had already succeeded
(`isAfterCheckpoint`), and with `JVMCheckpointFailure` otherwise —
regardless of the classification in flight (including
`SystemCheckpointFailure` from a failed dump); only when every close the
exit path performs succeeds is the body's outcome preserved.  The
`closeWorkDirFD` label (close of `workDirFD`) runs when the body jumps to a
label of index ≤ 1, the `close(dirFD)` in `freeWorkDir` when it jumps to a
label of index ≤ 2. -/
theorem close_failure_overwrite_policy (e : CheckpointEnv) (r : CheckpointRequest)
    (hallow : e.checkpointAllowed = true) :
    ((checkpointBody e r).label.idx ≤ 2 → e.closeDirOk = false →
        (Java_org_eclipse_openj9_criu_CRIUSupport_checkpointJVMImpl e r).1
          = overwriteRT (checkpointBody e r).isAfterCheckpoint)
      ∧ ((checkpointBody e r).label.idx ≤ 1 → e.closeWorkOk = false →
          (Java_org_eclipse_openj9_criu_CRIUSupport_checkpointJVMImpl e r).1
            = overwriteRT (checkpointBody e r).isAfterCheckpoint)
      ∧ (((checkpointBody e r).label.idx ≤ 1 → e.closeWorkOk = true) →
          ((checkpointBody e r).label.idx ≤ 2 → e.closeDirOk = true) →
          (Java_org_eclipse_openj9_criu_CRIUSupport_checkpointJVMImpl e r).1
            = (checkpointBody e r).rt) := by
  have himpl : (Java_org_eclipse_openj9_criu_CRIUSupport_checkpointJVMImpl e r).1
      = cleanupResult e (checkpointBody e r) := by
    simp [Java_org_eclipse_openj9_criu_CRIUSupport_checkpointJVMImpl, hallow]
  refine ⟨?_, ?_, ?_⟩ <;> rw [himpl] <;> unfold cleanupResult
  · intro hidx hdir
    simp [hidx, hdir]
  · intro hidx hwork
    have hidx2 : (checkpointBody e r).label.idx ≤ 2 := by omega
    by_cases hd : e.closeDirOk = false <;> simp [hidx, hidx2, hwork, hd]
  · intro hw hd
    have hA : ¬((checkpointBody e r).label.idx ≤ 1 ∧ e.closeWorkOk = false) := by
      rintro ⟨ha, hb⟩
      simp [hw ha] at hb
    have hB : ¬((checkpointBody e r).label.idx ≤ 2 ∧ e.closeDirOk = false) := by
      rintro ⟨ha, hb⟩
      simp [hd ha] at hb
    simp [hA, hB]

/-- C2 witness: concrete run in which the work-directory close fails after
a failed dump; the theorem's overwrite branch applies. -/
theorem close_failure_overwrite_policy_witness :
    envDumpCloseFail.checkpointAllowed = true
      ∧ (checkpointBody envDumpCloseFail reqPlain).label.idx ≤ 1
      ∧ envDumpCloseFail.closeWorkOk = false
      ∧ (Java_org_eclipse_openj9_criu_CRIUSupport_checkpointJVMImpl envDumpCloseFail reqPlain).1
          = overwriteRT (checkpointBody envDumpCloseFail reqPlain).isAfterCheckpoint :=
  ⟨rfl, by decide, rfl,
    (close_failure_overwrite_policy envDumpCloseFail reqPlain rfl).2.1 (by decide) rfl⟩

/-- C7 counterexample: the claim says a negative `criu_dump` return always
yields `SystemCheckpointFailure`; but when a later close fails the outcome
is overwritten with `JVMCheckpointFailure` instead. -/
theorem dump_failure_outcome_overwritten :
    Event.dump (-1)
        ∈ (Java_org_eclipse_openj9_criu_CRIUSupport_checkpointJVMImpl envDumpCloseFail reqPlain).2
      ∧ (Java_org_eclipse_openj9_criu_CRIUSupport_checkpointJVMImpl envDumpCloseFail reqPlain).1
          ≠ ResultType.SystemCheckpointFailure := by
  decide

/-- C8 counterexample: the image-directory descriptor is acquired before
the work-directory path string, yet it is also released before it — the
release order is not the strict reverse of the acquisition order.  In this
run (heap-allocated work-directory string, everything succeeds) the trace
acquires `imageFD` before `workStr` and closes `imageFD` before freeing
`workStr`. -/
theorem release_order_not_reverse_of_acquisition :
    (Event.opened Handle.imageFD 3
        ∈ (Java_org_eclipse_openj9_criu_CRIUSupport_checkpointJVMImpl envWorkHeap reqWork).2
      ∧ Event.strAcquired Handle.workStr
        ∈ (Java_org_eclipse_openj9_criu_CRIUSupport_checkpointJVMImpl envWorkHeap reqWork).2
      ∧ firstIdx (Java_org_eclipse_openj9_criu_CRIUSupport_checkpointJVMImpl envWorkHeap reqWork).2
          (Event.opened Handle.imageFD 3)
        < firstIdx (Java_org_eclipse_openj9_criu_CRIUSupport_checkpointJVMImpl envWorkHeap reqWork).2
          (Event.strAcquired Handle.workStr))
    ∧ (Event.closed Handle.imageFD true
        ∈ (Java_org_eclipse_openj9_criu_CRIUSupport_checkpointJVMImpl envWorkHeap reqWork).2
      ∧ Event.strFreed Handle.workStr
        ∈ (Java_org_eclipse_openj9_criu_CRIUSupport_checkpointJVMImpl envWorkHeap reqWork).2
      ∧ firstIdx (Java_org_eclipse_openj9_criu_CRIUSupport_checkpointJVMImpl envWorkHeap reqWork).2
          (Event.closed Handle.imageFD true)
        < firstIdx (Java_org_eclipse_openj9_criu_CRIUSupport_checkpointJVMImpl envWorkHeap reqWork).2
          (Event.strFreed Handle.workStr)) := by
  decide

/-- C5: when the image-directory path cannot be opened as a directory
(`open` returns a negative descriptor), the outcome is `InvalidArguments`
and exclusive VM access is never acquired in that invocation. -/
theorem bad_image_dir_invalid_arguments (e : CheckpointEnv) (r : CheckpointRequest)
    (hallow : e.checkpointAllowed = true)
    (hdir : (getNativeString e.dirStr).isOk = true)
    (hlog : r.hasLogFile = true → (getNativeString e.logStr).isOk = true)
    (hopen : e.dirOpenFD < 0) :
    (Java_org_eclipse_openj9_criu_CRIUSupport_checkpointJVMImpl e r).1
        = ResultType.InvalidArguments
      ∧ Event.acquireExclusive
          ∉ (Java_org_eclipse_openj9_criu_CRIUSupport_checkpointJVMImpl e r).2 := by
  have hbody : (checkpointBody e r).rt = ResultType.InvalidArguments
      ∧ (checkpointBody e r).label = CleanupLabel.freeLog := by
    unfold checkpointBody
    cases hd : getNativeString e.dirStr with
    | fail rt h => rw [hd] at hdir; simp [StrResult.isOk] at hdir
    | ok dh =>
      cases hL : r.hasLogFile with
      | false => simp [bodyFromOpenDir, hopen]
      | true =>
        cases hl : getNativeString e.logStr with
        | fail rt h =>
          have hbad := hlog hL
          rw [hl] at hbad
          simp [StrResult.isOk] at hbad
        | ok lh => simp [bodyFromOpenDir, hopen]
  have himpl : Java_org_eclipse_openj9_criu_CRIUSupport_checkpointJVMImpl e r
      = (cleanupResult e (checkpointBody e r),
         (checkpointBody e r).events ++ cleanupEvents e (checkpointBody e r)) := by
    simp [Java_org_eclipse_openj9_criu_CRIUSupport_checkpointJVMImpl, hallow]
  constructor
  · rw [himpl]
    unfold cleanupResult
    simp [hbody.1, hbody.2, CleanupLabel.idx]
  · rw [himpl]
    intro hmem
    have hpos := (countEv_pos_iff Event.acquireExclusive _).mpr hmem
    obtain ⟨h1, h2, h3⟩ := checkpointBody_ok e r
    rw [countEv_append, h3, cleanup_countEv_acquireExclusive, hbody.2] at hpos
    simp at hpos

/-- C5 witness: concrete request whose image directory fails to open. -/
theorem bad_image_dir_invalid_arguments_witness :
    envBadDir.checkpointAllowed = true
      ∧ (getNativeString envBadDir.dirStr).isOk = true
      ∧ envBadDir.dirOpenFD < 0
      ∧ ((Java_org_eclipse_openj9_criu_CRIUSupport_checkpointJVMImpl envBadDir reqPlain).1
            = ResultType.InvalidArguments
          ∧ Event.acquireExclusive
              ∉ (Java_org_eclipse_openj9_criu_CRIUSupport_checkpointJVMImpl envBadDir reqPlain).2) :=
  ⟨rfl, by decide, by decide,
    bad_image_dir_invalid_arguments envBadDir reqPlain rfl (by decide)
      (fun h => by simp [reqPlain] at h) (by decide)⟩

/-- C6: whenever `criu_dump` returns a non-negative status, the PostRestore
hooks run, and if they fail the final outcome is `JvmRestoreFailure` (on
every such run, whatever the later closes do), not `JvmCheckpointFailure`. -/
theorem post_restore_hooks_after_successful_dump (e : CheckpointEnv) (r : CheckpointRequest)
    (hallow : e.checkpointAllowed = true)
    (hdir : (getNativeString e.dirStr).isOk = true)
    (hlog : r.hasLogFile = true → (getNativeString e.logStr).isOk = true)
    (hopen : 0 ≤ e.dirOpenFD)
    (hwork : r.hasWorkDir = true → (getNativeString e.workStr).isOk = true)
    (hwopen : r.hasWorkDir = true → 0 ≤ e.workOpenFD)
    (hinit : e.initOptsRC = 0)
    (hpre : e.preHooksOk = true)
    (hdump : 0 ≤ e.dumpRC) :
    Event.postHooks e.postHooksOk
        ∈ (Java_org_eclipse_openj9_criu_CRIUSupport_checkpointJVMImpl e r).2
      ∧ (e.postHooksOk = false →
          (Java_org_eclipse_openj9_criu_CRIUSupport_checkpointJVMImpl e r).1
            = ResultType.JVMRestoreFailure) := by
  obtain ⟨dh, lh, wh, ev, heq⟩ :=
    checkpointBody_reach_init e r hdir hlog hopen hwork hwopen
  have hmem : Event.postHooks e.postHooksOk ∈ (checkpointBody e r).events := by
    rw [heq]
    unfold bodyFromInit
    rw [if_neg (by simp [hinit]), if_neg (by simp [hpre]), if_neg (not_lt.mpr hdump)]
    cases hp : e.postHooksOk <;> simp
  have hfields : (checkpointBody e r).isAfterCheckpoint = true
      ∧ (e.postHooksOk = false → (checkpointBody e r).rt = ResultType.JVMRestoreFailure) := by
    rw [heq]
    unfold bodyFromInit
    rw [if_neg (by simp [hinit]), if_neg (by simp [hpre]), if_neg (not_lt.mpr hdump)]
    cases hp : e.postHooksOk <;> simp
  have himpl : Java_org_eclipse_openj9_criu_CRIUSupport_checkpointJVMImpl e r
      = (cleanupResult e (checkpointBody e r),
         (checkpointBody e r).events ++ cleanupEvents e (checkpointBody e r)) := by
    simp [Java_org_eclipse_openj9_criu_CRIUSupport_checkpointJVMImpl, hallow]
  constructor
  · rw [himpl]
    exact List.mem_append_left _ hmem
  · intro hpf
    rw [himpl]
    unfold cleanupResult
    simp only [hfields.2 hpf, hfields.1, overwriteRT, if_true]
    split_ifs <;> rfl

/-- C6 witness: dump succeeds, the post-restore hook fails, the outcome is
`JVMRestoreFailure`. -/
theorem post_restore_hooks_after_successful_dump_witness :
    envPostHookFail.postHooksOk = false
      ∧ Event.postHooks false
          ∈ (Java_org_eclipse_openj9_criu_CRIUSupport_checkpointJVMImpl envPostHookFail reqPlain).2
      ∧ (Java_org_eclipse_openj9_criu_CRIUSupport_checkpointJVMImpl envPostHookFail reqPlain).1
          = ResultType.JVMRestoreFailure :=
  ⟨rfl,
    (post_restore_hooks_after_successful_dump envPostHookFail reqPlain rfl (by decide)
        (fun h => by simp [reqPlain] at h) (by decide)
        (fun h => by simp [reqPlain] at h) (fun h => by simp [reqPlain] at h)
        rfl rfl (by decide)).1,
    (post_restore_hooks_after_successful_dump envPostHookFail reqPlain rfl (by decide)
        (fun h => by simp [reqPlain] at h) (by decide)
        (fun h => by simp [reqPlain] at h) (fun h => by simp [reqPlain] at h)
        rfl rfl (by decide)).2 rfl⟩

/-- C8 amended: on every invocation the handle acquisitions occur in the
fixed program order (image string, log string, image descriptor, work
string, work descriptor) and the releases occur in the fixed cleanup order
(work descriptor, image descriptor, work string, log string, image
string).  The release order is reverse acquisition order within the
descriptors and within the strings, but not globally: the image-directory
descriptor is closed before the work-directory string is freed although it
was acquired before it. -/
theorem handle_release_order (e : CheckpointEnv) (r : CheckpointRequest) :
    List.Sublist
        ((Java_org_eclipse_openj9_criu_CRIUSupport_checkpointJVMImpl e r).2.filter
          isHandleAcquire)
        (acqOrder e)
      ∧ List.Sublist
          ((Java_org_eclipse_openj9_criu_CRIUSupport_checkpointJVMImpl e r).2.filter
            isHandleRelease)
          (relOrder e) := by
  by_cases hallow : e.checkpointAllowed
  · have himpl : (Java_org_eclipse_openj9_criu_CRIUSupport_checkpointJVMImpl e r).2
        = (checkpointBody e r).events ++ cleanupEvents e (checkpointBody e r) := by
      simp [Java_org_eclipse_openj9_criu_CRIUSupport_checkpointJVMImpl, hallow]
    rw [himpl, List.filter_append, List.filter_append]
    constructor
    · rw [filterAcq_cleanupEvents]
      simpa using filterAcq_checkpointBody e r
    · have hnil : (checkpointBody e r).events.filter isHandleRelease = [] := by
        rw [List.filter_eq_nil_iff]
        intro a ha
        have h1 := (checkpointBody_ok e r).1
        rw [List.all_eq_true] at h1
        simpa using h1 a ha
      rw [hnil]
      simpa using filterRel_cleanupEvents_sublist e (checkpointBody e r)
  · constructor <;>
      simp [Java_org_eclipse_openj9_criu_CRIUSupport_checkpointJVMImpl, hallow]

/-- C9 amended: `isCheckpointAllowed` is side-effect free (it returns the
VM predicate and leaves the process-wide state untouched), but
`isCRIUSupportEnabledImpl` is not: it caches the JNI result classes and
field IDs (when the class lookups succeed), initializes the external CRIU
option state (when support is enabled), and sets a pending out-of-memory
error when a class lookup fails. -/
theorem query_state_effects (e : QueryEnv) (s : VMGlobalState) :
    (Java_org_eclipse_openj9_criu_CRIUSupport_isCheckpointAllowed e s).2 = s
      ∧ (Java_org_eclipse_openj9_criu_CRIUSupport_isCheckpointAllowed e s).1
          = e.checkpointAllowedFn
      ∧ (e.resultTypeClassFound = true → e.resultClassFound = true →
          (Java_org_eclipse_openj9_criu_CRIUSupport_isCRIUSupportEnabledImpl e s).2.fieldIDsSet
            = true)
      ∧ (e.criuSupportEnabled = true →
          (Java_org_eclipse_openj9_criu_CRIUSupport_isCRIUSupportEnabledImpl e s).2.criuOptsInited
            = true)
      ∧ ((e.resultTypeClassFound = false ∨ e.resultClassFound = false) →
          (Java_org_eclipse_openj9_criu_CRIUSupport_isCRIUSupportEnabledImpl e s).2.pendingError
            = true)
      ∧ (Java_org_eclipse_openj9_criu_CRIUSupport_isCRIUSupportEnabledImpl e s).1
          = (e.criuSupportEnabled && decide (e.initOptsRC = 0)) := by
  refine ⟨rfl, rfl, ?_, ?_, ?_, ?_⟩
  · intro h1 h2
    by_cases hc : e.criuSupportEnabled <;>
      simp [Java_org_eclipse_openj9_criu_CRIUSupport_isCRIUSupportEnabledImpl,
        setupJNIFieldIDs, hc, h1, h2]
  · intro hc
    by_cases h1 : e.resultTypeClassFound <;> by_cases h2 : e.resultClassFound <;>
      simp [Java_org_eclipse_openj9_criu_CRIUSupport_isCRIUSupportEnabledImpl,
        setupJNIFieldIDs, hc, h1, h2]
  · intro hbad
    by_cases hc : e.criuSupportEnabled <;>
      by_cases h1 : e.resultTypeClassFound <;> by_cases h2 : e.resultClassFound <;>
      rcases hbad with hb | hb <;>
      simp_all [Java_org_eclipse_openj9_criu_CRIUSupport_isCRIUSupportEnabledImpl,
        setupJNIFieldIDs]
  · by_cases hc : e.criuSupportEnabled <;>
      simp [Java_org_eclipse_openj9_criu_CRIUSupport_isCRIUSupportEnabledImpl,
        setupJNIFieldIDs, hc]

/-- C9 witness: on a fresh state with the class lookups succeeding,
`isCheckpointAllowed` leaves the state unchanged while
`isCRIUSupportEnabledImpl` caches the field IDs. -/
theorem query_state_effects_witness :
    (Java_org_eclipse_openj9_criu_CRIUSupport_isCheckpointAllowed queryEnvOk vmStateFresh).2
        = vmStateFresh
      ∧ (Java_org_eclipse_openj9_criu_CRIUSupport_isCRIUSupportEnabledImpl
            queryEnvOk vmStateFresh).2.fieldIDsSet = true
      ∧ (Java_org_eclipse_openj9_criu_CRIUSupport_isCRIUSupportEnabledImpl
            queryEnvOk vmStateFresh).2.criuOptsInited = true :=
  ⟨(query_state_effects queryEnvOk vmStateFresh).1,
    (query_state_effects queryEnvOk vmStateFresh).2.2.1 rfl rfl,
    (query_state_effects queryEnvOk vmStateFresh).2.2.2.1 rfl⟩

/-- C9 counterexample: the claim says `isCRIUSupportEnabledImpl` leaves all
process-wide state unchanged, but it caches the JNI field IDs and
initializes the CRIU option state. -/
theorem is_supported_mutates_state :
    (Java_org_eclipse_openj9_criu_CRIUSupport_isCRIUSupportEnabledImpl queryEnvOk vmStateFresh).2
      ≠ vmStateFresh := by
  decide

/-- C7 amended: when `criu_dump` returns a negative status the outcome is
`SystemCheckpointFailure` provided the subsequent closes succeed; if a
close then fails, the outcome is overwritten with `JVMCheckpointFailure`.
Any non-negative return is treated as a successful dump: the invocation
proceeds past the checkpoint (`isAfterCheckpoint`) and runs the
post-restore hooks. -/
theorem dump_status_classification (e : CheckpointEnv) (r : CheckpointRequest)
    (hallow : e.checkpointAllowed = true)
    (hdir : (getNativeString e.dirStr).isOk = true)
    (hlog : r.hasLogFile = true → (getNativeString e.logStr).isOk = true)
    (hopen : 0 ≤ e.dirOpenFD)
    (hwork : r.hasWorkDir = true → (getNativeString e.workStr).isOk = true)
    (hwopen : r.hasWorkDir = true → 0 ≤ e.workOpenFD)
    (hinit : e.initOptsRC = 0)
    (hpre : e.preHooksOk = true) :
    (e.dumpRC < 0 → e.closeWorkOk = true → e.closeDirOk = true →
        (Java_org_eclipse_openj9_criu_CRIUSupport_checkpointJVMImpl e r).1
          = ResultType.SystemCheckpointFailure)
      ∧ (e.dumpRC < 0 → (e.closeWorkOk = false ∨ e.closeDirOk = false) →
          (Java_org_eclipse_openj9_criu_CRIUSupport_checkpointJVMImpl e r).1
            = ResultType.JVMCheckpointFailure)
      ∧ (0 ≤ e.dumpRC →
          (checkpointBody e r).isAfterCheckpoint = true
            ∧ Event.postHooks e.postHooksOk
                ∈ (Java_org_eclipse_openj9_criu_CRIUSupport_checkpointJVMImpl e r).2) := by
  obtain ⟨dh, lh, wh, ev, heq⟩ :=
    checkpointBody_reach_init e r hdir hlog hopen hwork hwopen
  have himpl : Java_org_eclipse_openj9_criu_CRIUSupport_checkpointJVMImpl e r
      = (cleanupResult e (checkpointBody e r),
         (checkpointBody e r).events ++ cleanupEvents e (checkpointBody e r)) := by
    simp [Java_org_eclipse_openj9_criu_CRIUSupport_checkpointJVMImpl, hallow]
  refine ⟨?_, ?_, ?_⟩
  · intro hdump hcw hcd
    have hfields : (checkpointBody e r).rt = ResultType.SystemCheckpointFailure
        ∧ (checkpointBody e r).label = CleanupLabel.releaseExclusive := by
      rw [heq]
      unfold bodyFromInit
      rw [if_neg (by simp [hinit]), if_neg (by simp [hpre]), if_pos hdump]
      simp
    rw [himpl]
    unfold cleanupResult
    simp [hfields.1, hfields.2, hcw, hcd]
  · intro hdump hclose
    have hfields : (checkpointBody e r).isAfterCheckpoint = false
        ∧ (checkpointBody e r).label = CleanupLabel.releaseExclusive := by
      rw [heq]
      unfold bodyFromInit
      rw [if_neg (by simp [hinit]), if_neg (by simp [hpre]), if_pos hdump]
      simp
    rw [himpl]
    unfold cleanupResult
    rcases hclose with hcw | hcd
    · by_cases hcd : e.closeDirOk = false <;>
        simp [hfields.1, hfields.2, CleanupLabel.idx, overwriteRT, hcw, hcd]
    · simp [hfields.1, hfields.2, CleanupLabel.idx, overwriteRT, hcd]
  · intro hdump
    have hfields : (checkpointBody e r).isAfterCheckpoint = true
        ∧ Event.postHooks e.postHooksOk ∈ (checkpointBody e r).events := by
      rw [heq]
      unfold bodyFromInit
      rw [if_neg (by simp [hinit]), if_neg (by simp [hpre]), if_neg (not_lt.mpr hdump)]
      cases hp : e.postHooksOk <;> simp
    rw [himpl]
    exact ⟨hfields.1, List.mem_append_left _ hfields.2⟩

/-- C7 witness: dump fails with every close succeeding; the outcome is
`SystemCheckpointFailure`. -/
theorem dump_status_classification_witness :
    (⟨true, strEnvOkSmall, strEnvOkSmall, strEnvOkSmall, 3, 4, 0, true, -1, true, true, true⟩
          : CheckpointEnv).dumpRC < 0
      ∧ (Java_org_eclipse_openj9_criu_CRIUSupport_checkpointJVMImpl
            ⟨true, strEnvOkSmall, strEnvOkSmall, strEnvOkSmall, 3, 4, 0, true, -1, true, true, true⟩
            reqPlain).1
          = ResultType.SystemCheckpointFailure :=
  ⟨by decide,
    (dump_status_classification
        ⟨true, strEnvOkSmall, strEnvOkSmall, strEnvOkSmall, 3, 4, 0, true, -1, true, true, true⟩
        reqPlain rfl (by decide) (fun h => by simp [reqPlain] at h) (by decide)
        (fun h => by simp [reqPlain] at h) (fun h => by simp [reqPlain] at h)
        rfl rfl).1 (by decide) rfl rfl⟩

/-- C10: the claim says an out-of-memory while converting a path string is
classified `JvmCheckpointFailure` (true: a failed UTF8 copy, and a failed
allocation, both set the native OOM error and that classification) while a
failure of the encoding conversion itself yields `InvalidArguments`.  The
code never produces the latter: `requiredConvertedStringSize` is `UDATA`
(unsigned), so the `< 0` checks guarding the `INVALID_ARGUMENTS`
classification are constant-false dead code.  Concretely: a conversion
returning -2 wraps to a huge unsigned size and either counts as a
successfully converted string (allocation reported successful - the whole
checkpoint then proceeds and can report `Success`) or is misclassified as
the out-of-memory `JVMCheckpointFailure`; a conversion returning -1 wraps
the size to 0 and performs an out-of-bounds write. -/
theorem conversion_failure_never_invalid_arguments :
    getNativeString strEnvCopyFail
        = StrResult.fail ResultType.JVMCheckpointFailure false
      ∧ getNativeString strEnvConvNeg = StrResult.ok true
      ∧ getNativeString strEnvConvNegAllocFail
          = StrResult.fail ResultType.JVMCheckpointFailure false
      ∧ getNativeStringOOBWrite strEnvConvWrap = true
      ∧ (Java_org_eclipse_openj9_criu_CRIUSupport_checkpointJVMImpl envDirConvNegOOM reqPlain).1
          = ResultType.JVMCheckpointFailure
      ∧ (Java_org_eclipse_openj9_criu_CRIUSupport_checkpointJVMImpl envDirConvNeg reqPlain).1
          = ResultType.Success := by
  decide

end CriuSupport
